import Mathlib

/-!
Verification of the Multi-Vendor Data Fetching System core against its
specification.  The Python source is shallowly embedded: JSON-like values
become an inductive `Value`, the Mongo job collection becomes a list of
documents with the unique-index discipline made explicit, the Redis stream
with its consumer group becomes an explicit `QueueState`, and the worker /
webhook code paths become pure functions over those states.  Timestamps are
abstract naturals (rationals for the rate limiter) supplied by the caller.
-/

namespace MultiVendor

/-- JSON-like values: the payloads, vendor responses and stored results are
schema-free (`Dict[str, Any]` in the source), modelled as a tree of scalars,
sequences and string-keyed mappings (mappings keep Python dict insertion
order as an association list). -/
inductive Value where
  | str (s : String)
  | int (n : Int)
  | bool (b : Bool)
  | null
  | list (items : List Value)
  | dict (entries : List (String × Value))

/-- Python truthiness (`if result:`) restricted to the values of `Value`:
empty strings, zero, `False`, `None`, empty lists and empty dicts are falsy. -/
def pyTruthy : Value → Bool
  | Value.str s => s != ""
  | Value.int n => n != 0
  | Value.bool b => b
  | Value.null => false
  | Value.list items => !items.isEmpty
  | Value.dict entries => !entries.isEmpty

/-- Strip elements satisfying `p` from both ends of a list. -/
def stripEnds (p : α → Bool) (l : List α) : List α :=
  ((l.dropWhile p).reverse.dropWhile p).reverse

/-- Python `str.strip()`: remove leading and trailing whitespace. -/
def pyStrip (s : String) : String :=
  String.mk (stripEnds Char.isWhitespace s.data)

/-- The PII substrings checked by `clean_vendor_data`
(`['email', 'phone', 'ssn', 'password']`). -/
def piiPatterns : List String := ["email", "phone", "ssn", "password"]

/-- Lower-case a string character-wise, as `key.lower()` does for ASCII keys. -/
def pyLower (s : String) : String := String.mk (s.data.map Char.toLower)

/-- Python substring test `needle in hay` on character lists. -/
def charsContain (hay needle : List Char) : Bool :=
  match hay with
  | [] => needle.isEmpty
  | _ :: t => needle.isPrefixOf hay || charsContain t needle

/-- `any(pii in key.lower() for pii in [...])` from
`shared/models.py:clean_vendor_data`. -/
def isPIIKey (key : String) : Bool :=
  piiPatterns.any fun p => charsContain (pyLower key).data p.data

mutual

/-- `shared/models.py:clean_vendor_data`: non-dict input is returned
unchanged; dict input has each entry cleaned. -/
def clean_vendor_data : Value → Value
  | Value.dict entries => Value.dict (cleanEntries entries)
  | Value.str s => Value.str s
  | Value.int n => Value.int n
  | Value.bool b => Value.bool b
  | Value.null => Value.null
  | Value.list items => Value.list items

/-- The `for key, value in data.items()` loop of `clean_vendor_data`. -/
def cleanEntries : List (String × Value) → List (String × Value)
  | [] => []
  | (key, v) :: rest => (key, cleanEntry key v) :: cleanEntries rest

/-- One iteration of the loop body of `clean_vendor_data`: strings are
stripped and redacted under a PII key, dicts recursed into, lists have their
dict elements recursed into, everything else is kept as-is. -/
def cleanEntry (key : String) : Value → Value
  | Value.str s =>
      Value.str (if isPIIKey key then "[REDACTED]" else pyStrip s)
  | Value.dict entries => Value.dict (cleanEntries entries)
  | Value.list items => Value.list (cleanItems items)
  | Value.int n => Value.int n
  | Value.bool b => Value.bool b
  | Value.null => Value.null

/-- The list comprehension of `clean_vendor_data`: elements that are dicts
are cleaned recursively, all other elements pass through unchanged. -/
def cleanItems : List Value → List Value
  | [] => []
  | Value.dict entries :: rest => Value.dict (cleanEntries entries) :: cleanItems rest
  | Value.str s :: rest => Value.str s :: cleanItems rest
  | Value.int n :: rest => Value.int n :: cleanItems rest
  | Value.bool b :: rest => Value.bool b :: cleanItems rest
  | Value.null :: rest => Value.null :: cleanItems rest
  | Value.list items :: rest => Value.list items :: cleanItems rest

end

mutual

/-- Structural equality of `Value`, mirroring equality of the stored BSON
documents (used to model `modified_count` of a Mongo update). -/
def Value.beq : Value → Value → Bool
  | Value.str a, Value.str b => a == b
  | Value.int a, Value.int b => a == b
  | Value.bool a, Value.bool b => a == b
  | Value.null, Value.null => true
  | Value.list a, Value.list b => Value.beqItems a b
  | Value.dict a, Value.dict b => Value.beqEntries a b
  | _, _ => false

def Value.beqItems : List Value → List Value → Bool
  | [], [] => true
  | a :: as, b :: bs => Value.beq a b && Value.beqItems as bs
  | _, _ => false

def Value.beqEntries : List (String × Value) → List (String × Value) → Bool
  | [], [] => true
  | (k1, v1) :: as, (k2, v2) :: bs =>
      k1 == k2 && Value.beq v1 v2 && Value.beqEntries as bs
  | _, _ => false

end

/-- `shared/models.py:JobStatus`. -/
inductive JobStatus where
  | pending
  | processing
  | complete
  | failed
deriving DecidableEq

/-- `shared/models.py:VendorType`. -/
inductive VendorType where
  | sync
  | async
deriving DecidableEq

/-- A document of the `jobs` Mongo collection, as written by
`DatabaseManager.create_job`.  Timestamps are abstract naturals supplied by
the caller (standing for `datetime.utcnow()`). -/
structure JobDoc where
  request_id : String
  payload : Value
  status : JobStatus
  created_at : Nat
  updated_at : Nat
  result : Option Value
  error : Option String

/-- Equality of stored documents (for Mongo's modified-count bookkeeping). -/
def JobDoc.beq (a b : JobDoc) : Bool :=
  a.request_id == b.request_id && Value.beq a.payload b.payload &&
    a.status == b.status && a.created_at == b.created_at &&
    a.updated_at == b.updated_at &&
    (match a.result, b.result with
     | none, none => true
     | some x, some y => Value.beq x y
     | _, _ => false) &&
    a.error == b.error

/-- The `jobs` collection: a list of documents; `create_job` enforces the
unique index on `request_id`, so ids never repeat. -/
abbrev Store := List JobDoc

/-- `DatabaseManager.create_job`: inserting a document whose `request_id`
already exists violates the unique index, the exception is caught and
`False` returned with no document written; otherwise the fresh `pending`
document (with `result` and `error` null) is appended and `True` returned. -/
def create_job (store : Store) (request_id : String) (payload : Value)
    (now : Nat) : Store × Bool :=
  if store.any (fun d => d.request_id == request_id) then
    (store, false)
  else
    (store ++ [{ request_id := request_id, payload := payload,
                 status := JobStatus.pending, created_at := now,
                 updated_at := now, result := none, error := none }], true)

/-- `shared/models.py:JobStatusResponse` as assembled by
`DatabaseManager.get_job`. -/
structure JobStatusResponse where
  status : JobStatus
  result : Option Value
  error : Option String
  created_at : Nat
  updated_at : Nat

/-- `DatabaseManager.get_job`: `find_one` on `request_id`; `None` when the
id is absent. -/
def get_job (store : Store) (request_id : String) : Option JobStatusResponse :=
  (store.find? (fun d => d.request_id == request_id)).map fun d =>
    { status := d.status, result := d.result, error := d.error,
      created_at := d.created_at, updated_at := d.updated_at }

/-- The `$set` document built by `DatabaseManager.update_job_status`:
`status` and `updated_at` always, `result` and `error` only when the
optional arguments are not `None`. -/
def applySet (doc : JobDoc) (status : JobStatus) (result : Option Value)
    (error : Option String) (now : Nat) : JobDoc :=
  { doc with
    status := status
    updated_at := now
    result := match result with | some r => some r | none => doc.result
    error := match error with | some e => some e | none => doc.error }

/-- `update_one` on the first document matching the filter. -/
def updateFirst (store : Store) (request_id : String) (f : JobDoc → JobDoc) :
    Store :=
  match store with
  | [] => []
  | d :: rest =>
      if d.request_id == request_id then f d :: rest
      else d :: updateFirst rest request_id f

/-- `DatabaseManager.update_job_status`: a partial-merge `$set` update on
the document matching `request_id`; returns `modified_count > 0`, i.e.
whether a matching document existed and actually changed. -/
def update_job_status (store : Store) (request_id : String)
    (status : JobStatus) (result : Option Value) (error : Option String)
    (now : Nat) : Store × Bool :=
  match store.find? (fun d => d.request_id == request_id) with
  | none => (store, false)
  | some doc =>
      (updateFirst store request_id
         (fun d => applySet d status result error now),
       !JobDoc.beq (applySet doc status result error now) doc)

/-- Outcome of the webhook HTTP endpoint: 200 success or a 404. -/
inductive WebhookOutcome where
  | success
  | notFound
deriving DecidableEq

/-- `api/main.py:vendor_webhook`: unconditionally writes `complete` with the
callback's `data` as the result (no sanitization); a falsy update outcome is
reported as 404 Job not found. -/
def vendor_webhook (store : Store) (job_id : String) (data : Value)
    (now : Nat) : Store × WebhookOutcome :=
  let r := update_job_status store job_id JobStatus.complete (some data) none now
  (r.1, if r.2 then WebhookOutcome.success else WebhookOutcome.notFound)

/-- `isinstance(data, dict)`. -/
def Value.isDict : Value → Bool
  | Value.dict _ => true
  | _ => false

/-- A concrete stored job in the `failed` terminal state, used as a test
vector. -/
def failedDoc : JobDoc :=
  { request_id := "j2", payload := Value.null, status := JobStatus.failed,
    created_at := 0, updated_at := 1, result := none, error := some "boom" }

/-- A Redis stream entry as written by `QueueManager.enqueue_job`
(`{request_id, payload, vendor_type, timestamp}`); `id` is the stream
message id assigned by `xadd`, and the JSON round trip on `payload` is
modelled as the identity. -/
structure QueueEntry where
  id : Nat
  request_id : String
  payload : Value
  vendor_type : String
  timestamp : String

/-- The state of the `job_queue` stream for the single consumer group:
the log of entries, the next fresh message id, the group's
last-delivered cursor and the pending (delivered-but-unacknowledged)
entry list. -/
structure QueueState where
  stream : List QueueEntry
  nextId : Nat
  deliveredCount : Nat
  pending : List Nat

/-- `QueueManager.enqueue_job`: `xadd` appends one entry to the stream. -/
def enqueue_job (q : QueueState) (request_id : String) (payload : Value)
    (vendor_type : String) (timestamp : String) : QueueState × Bool :=
  ({ q with
      stream := q.stream ++ [{ id := q.nextId, request_id := request_id,
                               payload := payload, vendor_type := vendor_type,
                               timestamp := timestamp }],
      nextId := q.nextId + 1 }, true)

/-- `shared/models.py:VendorRequest`: what `dequeue_job` parses out of an
entry — only `job_id` and `payload`; the `vendor_type` field is dropped. -/
structure VendorRequest where
  job_id : String
  payload : Value

/-- The `VendorRequest` parsed from a stream entry by `dequeue_job`. -/
def parseEntry (e : QueueEntry) : VendorRequest :=
  { job_id := e.request_id, payload := e.payload }

/-- `QueueManager.dequeue_job`: `xreadgroup` with `>` claims the next
undelivered entry (adding it to the pending list), the entry is parsed,
and then `xack` immediately removes it from the pending list — all before
the entry is returned to the caller. -/
def dequeue_job (q : QueueState) : QueueState × Option VendorRequest :=
  match q.stream[q.deliveredCount]? with
  | none => (q, none)
  | some e =>
      let claimed : QueueState :=
        { q with deliveredCount := q.deliveredCount + 1,
                 pending := q.pending ++ [e.id] }
      let acked : QueueState :=
        { claimed with pending := claimed.pending.filter (fun i => i != e.id) }
      (acked, some (parseEntry e))

/-- `worker/main.py:RateLimiter`: wall-clock times are rationals;
`last_call_time` starts at `0`. -/
structure RateLimiter where
  calls_per_second : Nat
  last_call_time : ℚ

/-- `1.0 / calls_per_second`. -/
def min_interval (rl : RateLimiter) : ℚ := 1 / rl.calls_per_second

/-- `RateLimiter.wait_if_needed` with `time.time()` at entry passed as
`now` and `time.sleep` exact: if the elapsed time since the last call is
below the minimum interval the caller sleeps for the difference, and
`last_call_time` is set to the (possibly delayed) admission time, which is
returned alongside the new limiter state. -/
def wait_if_needed (rl : RateLimiter) (now : ℚ) : RateLimiter × ℚ :=
  if now - rl.last_call_time < min_interval rl then
    ({ rl with last_call_time := rl.last_call_time + min_interval rl },
     rl.last_call_time + min_interval rl)
  else
    ({ rl with last_call_time := now }, now)

/-- The observable outcome of the HTTP POST to a vendor: a response with a
status code and JSON body, or a transport-level exception. -/
inductive HttpOutcome where
  | response (status_code : Nat) (body : Value)
  | transportError

/-- `VendorClient.call_sync_vendor`: the body on HTTP 200, `None` on any
other status code or on a transport exception. -/
def call_sync_vendor (outcome : HttpOutcome) : Option Value :=
  match outcome with
  | HttpOutcome.response code body => if code == 200 then some body else none
  | HttpOutcome.transportError => none

/-- `Worker.process_job`'s channel choice:
`"sync" if hash(job_id) % 2 == 0 else "async"`.  Python's string hash is
process-seeded, so the hash value is an abstract parameter `h`. -/
def chooseVendorType (h : Nat) : VendorType :=
  if h % 2 == 0 then VendorType.sync else VendorType.async

/-- Python `result.get("data", {})`: `None` here stands for the
`AttributeError` raised when the JSON body is not a dict. -/
def dictGet (v : Value) (key : String) (default : Value) : Option Value :=
  match v with
  | Value.dict entries =>
      some (((entries.find? (fun kv => kv.1 == key)).map Prod.snd).getD default)
  | _ => none

/-- `Worker.process_job` acting on the job store.  `h` is `hash(job_id)`;
`syncOut` is the sync vendor's HTTP outcome and `asyncAccepted` whether the
async vendor returned 200 (only one of them is consulted, by channel);
`t1`, `t2` are the `utcnow()` readings of the two status writes. -/
def process_job (store : Store) (vr : VendorRequest) (h : Nat)
    (syncOut : HttpOutcome) (asyncAccepted : Bool) (t1 t2 : Nat) : Store :=
  let s1 :=
    (update_job_status store vr.job_id JobStatus.processing none none t1).1
  match chooseVendorType h with
  | VendorType.sync =>
      match call_sync_vendor syncOut with
      | some body =>
          if pyTruthy body then
            match dictGet body "data" (Value.dict []) with
            | some d =>
                (update_job_status s1 vr.job_id JobStatus.complete
                  (some (clean_vendor_data d)) none t2).1
            | none =>
                (update_job_status s1 vr.job_id JobStatus.failed none
                  (some "AttributeError") t2).1
          else
            (update_job_status s1 vr.job_id JobStatus.failed none
              (some "Sync vendor call failed") t2).1
      | none =>
          (update_job_status s1 vr.job_id JobStatus.failed none
            (some "Sync vendor call failed") t2).1
  | VendorType.async =>
      if asyncAccepted then s1
      else
        (update_job_status s1 vr.job_id JobStatus.failed none
          (some "Async vendor call failed") t2).1

/-! Concrete end-to-end scenarios used as test vectors. -/

/-- A vendor `data` payload with a string field under a PII key, a string
inside a sequence, and a non-string value under a PII key. -/
def dataCex : Value :=
  Value.dict [("email", Value.str " a@b.com "),
              ("tags", Value.list [Value.str " x "]),
              ("phone", Value.int 7)]

/-- A sync-vendor HTTP 200 body `{"success": true, "data": ...}`. -/
def bodyCex : Value :=
  Value.dict [("success", Value.bool true), ("data", dataCex)]

/-- A store holding one freshly created pending job `jobA`. -/
def storeCex : Store := (create_job [] "jobA" Value.null 0).1

/-- The dequeued vendor request for `jobA`. -/
def vrCex : VendorRequest := { job_id := "jobA", payload := Value.null }

/-- `jobA` processed on the sync channel with a successful vendor call. -/
def storeSyncCex : Store :=
  process_job storeCex vrCex 0 (HttpOutcome.response 200 bodyCex) false 1 2

/-- `jobA` processed on the sync channel with a 200 response whose JSON
body is the empty (falsy) dict. -/
def storeEmptyBodyCex : Store :=
  process_job storeCex vrCex 0 (HttpOutcome.response 200 (Value.dict []))
    false 1 2

/-- `jobA` processed on the sync channel with a transport error. -/
def storeFailedCex : Store :=
  process_job storeCex vrCex 0 HttpOutcome.transportError false 1 2

/-- The failed `jobA` after a webhook callback posts a result for it. -/
def storeNecroCex : Store :=
  (vendor_webhook storeFailedCex "jobA" (Value.dict [("r", Value.int 1)]) 3).1

/-- A queue holding one entry for `jobA` whose channel selector says
`async`. -/
def queueCex : QueueState :=
  (enqueue_job { stream := [], nextId := 0, deliveredCount := 0,
                 pending := [] } "jobA" Value.null "async" "t0").1

/-- The entry that `queueCex` holds. -/
def entryCex : QueueEntry :=
  { id := 0, request_id := "jobA", payload := Value.null,
    vendor_type := "async", timestamp := "t0" }

/-- The same entry with the `sync` selector instead. -/
def entrySyncCex : QueueEntry :=
  { id := 0, request_id := "jobA", payload := Value.null,
    vendor_type := "sync", timestamp := "t0" }

/-- A concrete stored job in the `complete` terminal state. -/
def completeDoc : JobDoc :=
  { request_id := "jc", payload := Value.null, status := JobStatus.complete,
    created_at := 0, updated_at := 1, result := some (Value.int 1),
    error := none }

/-! Helper lemmas about `dropWhile` and `stripEnds`, used for the
idempotence of sanitization. -/

theorem dropWhile_self_idem (p : α → Bool) (l : List α) :
    (l.dropWhile p).dropWhile p = l.dropWhile p := by
  induction l with
  | nil => rfl
  | cons a t ih =>
    by_cases h : p a
    · simpa [List.dropWhile_cons, h] using ih
    · simp [List.dropWhile_cons, h]

theorem exists_append_dropWhile (p : α → Bool) (l : List α) :
    ∃ u, l = u ++ l.dropWhile p := by
  induction l with
  | nil => exact ⟨[], rfl⟩
  | cons a t ih =>
    by_cases h : p a
    · obtain ⟨u, hu⟩ := ih
      exact ⟨a :: u, by simpa [List.dropWhile_cons, h] using hu⟩
    · exact ⟨[], by simp [List.dropWhile_cons, h]⟩

theorem dropWhile_head_false (p : α → Bool) (l : List α) (a : α) (t : List α)
    (h : l.dropWhile p = a :: t) : p a = false := by
  induction l with
  | nil => simp at h
  | cons b u ih =>
    by_cases hb : p b
    · exact ih (by simpa [List.dropWhile_cons, hb] using h)
    · rw [List.dropWhile_cons_of_neg (by simpa using hb)] at h
      cases h
      simpa using hb

theorem stripEnds_idem (p : α → Bool) (l : List α) :
    stripEnds p (stripEnds p l) = stripEnds p l := by
  unfold stripEnds
  set m := l.dropWhile p with hm
  set d := m.reverse.dropWhile p with hd
  have hA : d.reverse.dropWhile p = d.reverse := by
    cases hr : d.reverse with
    | nil => simp
    | cons a t =>
      have hpa : p a = false := by
        obtain ⟨u, hu⟩ := exists_append_dropWhile p m.reverse
        have hm2 : m = d.reverse ++ u.reverse := by
          have := congrArg List.reverse hu
          simpa [hd] using this
        have : m = a :: (t ++ u.reverse) := by rw [hm2, hr]; simp
        exact dropWhile_head_false p l a (t ++ u.reverse) (by rw [← hm, this])
      simp [List.dropWhile_cons, hpa]
  rw [hA]
  have hB : d.reverse.reverse.dropWhile p = d := by
    rw [List.reverse_reverse, hd, dropWhile_self_idem]
  rw [hB]

theorem pyStrip_idem (s : String) : pyStrip (pyStrip s) = pyStrip s := by
  unfold pyStrip
  exact congrArg String.mk (stripEnds_idem Char.isWhitespace s.data)

/-! Helper lemmas about the job store operations. -/

theorem updateFirst_forall₂ (store : Store) (id : String) (f : JobDoc → JobDoc) :
    List.Forall₂ (fun d d' => d' = d ∨ ((d.request_id == id) = true ∧ d' = f d))
      store (updateFirst store id f) := by
  induction store with
  | nil => exact List.Forall₂.nil
  | cons d rest ih =>
    by_cases h : (d.request_id == id) = true
    · have : updateFirst (d :: rest) id f = f d :: rest := by
        simp [updateFirst, h]
      rw [this]
      exact List.Forall₂.cons (Or.inr ⟨h, rfl⟩)
        (List.forall₂_same.mpr fun x _ => Or.inl rfl)
    · have : updateFirst (d :: rest) id f = d :: updateFirst rest id f := by
        simp [updateFirst, h]
      rw [this]
      exact List.Forall₂.cons (Or.inl rfl) ih

theorem find?_updateFirst (store : Store) (id : String) (f : JobDoc → JobDoc)
    (hf : ∀ d, (f d).request_id = d.request_id) :
    (updateFirst store id f).find? (fun d => d.request_id == id) =
      (store.find? (fun d => d.request_id == id)).map f := by
  induction store with
  | nil => rfl
  | cons d rest ih =>
    by_cases h : (d.request_id == id) = true
    · have h1 : updateFirst (d :: rest) id f = f d :: rest := by
        simp [updateFirst, h]
      have hfd : ((f d).request_id == id) = true := by rw [hf d]; exact h
      rw [h1]
      simp [List.find?_cons, hfd, h]
    · have h1 : updateFirst (d :: rest) id f = d :: updateFirst rest id f := by
        simp [updateFirst, h]
      have hfd : ((f d).request_id == id) = false := by
        rw [hf d]; simpa using h
      rw [h1]
      simp [List.find?_cons, hfd, h, ih]

theorem applySet_request_id (d : JobDoc) (st : JobStatus) (res : Option Value)
    (err : Option String) (now : Nat) :
    (applySet d st res err now).request_id = d.request_id := rfl

theorem update_job_status_none (store : Store) (id : String) (st : JobStatus)
    (res : Option Value) (err : Option String) (now : Nat)
    (hfind : store.find? (fun d => d.request_id == id) = none) :
    update_job_status store id st res err now = (store, false) := by
  simp [update_job_status, hfind]

theorem find?_update_job_status (store : Store) (id : String) (st : JobStatus)
    (res : Option Value) (err : Option String) (now : Nat) (doc : JobDoc)
    (hfind : store.find? (fun d => d.request_id == id) = some doc) :
    ((update_job_status store id st res err now).1).find?
        (fun d => d.request_id == id) = some (applySet doc st res err now) := by
  simp only [update_job_status, hfind]
  rw [find?_updateFirst store id (fun d => applySet d st res err now)
    (fun d => rfl), hfind]
  rfl

theorem get_job_eq (store : Store) (id : String) (doc : JobDoc)
    (hfind : store.find? (fun d => d.request_id == id) = some doc) :
    get_job store id =
      some { status := doc.status, result := doc.result, error := doc.error,
             created_at := doc.created_at, updated_at := doc.updated_at } := by
  simp [get_job, hfind]

mutual

theorem clean_idem : (v : Value) →
    clean_vendor_data (clean_vendor_data v) = clean_vendor_data v
  | Value.dict entries =>
      congrArg Value.dict (cleanEntries_idem entries)
  | Value.str _ => rfl
  | Value.int _ => rfl
  | Value.bool _ => rfl
  | Value.null => rfl
  | Value.list _ => rfl

theorem cleanEntries_idem : (es : List (String × Value)) →
    cleanEntries (cleanEntries es) = cleanEntries es
  | [] => rfl
  | (key, v) :: rest => by
      simp only [cleanEntries]
      exact congrArg₂ (fun a b => (key, a) :: b) (cleanEntry_idem key v)
        (cleanEntries_idem rest)

theorem cleanEntry_idem : (key : String) → (v : Value) →
    cleanEntry key (cleanEntry key v) = cleanEntry key v
  | key, Value.str s => by
      by_cases h : isPIIKey key = true
      · simp [cleanEntry, h]
      · simp [cleanEntry, h, pyStrip_idem]
  | key, Value.dict entries => congrArg Value.dict (cleanEntries_idem entries)
  | key, Value.list items => congrArg Value.list (cleanItems_idem items)
  | _, Value.int _ => rfl
  | _, Value.bool _ => rfl
  | _, Value.null => rfl

theorem cleanItems_idem : (items : List Value) →
    cleanItems (cleanItems items) = cleanItems items
  | [] => rfl
  | Value.dict entries :: rest => by
      simp only [cleanItems]
      exact congrArg₂ (fun a b => Value.dict a :: b) (cleanEntries_idem entries)
        (cleanItems_idem rest)
  | Value.str s :: rest => by
      simp only [cleanItems]
      exact congrArg _ (cleanItems_idem rest)
  | Value.int n :: rest => by
      simp only [cleanItems]
      exact congrArg _ (cleanItems_idem rest)
  | Value.bool b :: rest => by
      simp only [cleanItems]
      exact congrArg _ (cleanItems_idem rest)
  | Value.null :: rest => by
      simp only [cleanItems]
      exact congrArg _ (cleanItems_idem rest)
  | Value.list items :: rest => by
      simp only [cleanItems]
      exact congrArg _ (cleanItems_idem rest)

end

/-! Helper lemmas about the rate limiter. -/

theorem wait_last_eq (rl : RateLimiter) (t : ℚ) :
    (wait_if_needed rl t).1.last_call_time = (wait_if_needed rl t).2 := by
  unfold wait_if_needed
  split <;> rfl

theorem wait_cps_eq (rl : RateLimiter) (t : ℚ) :
    (wait_if_needed rl t).1.calls_per_second = rl.calls_per_second := by
  unfold wait_if_needed
  split <;> rfl

theorem wait_ge (rl : RateLimiter) (t : ℚ) :
    (wait_if_needed rl t).2 ≥ rl.last_call_time + min_interval rl := by
  unfold wait_if_needed
  split
  · exact le_refl _
  · next h =>
    have h2 := not_lt.mp h
    show t ≥ rl.last_call_time + min_interval rl
    linarith

/-! The claims. -/

/-- Claim C6: `update_job_status` called with only a new status (`result`
and `error` both `None`) is a partial merge: every stored document is
either untouched, or is the matched document with only `status` and
`updated_at` rewritten — its `request_id`, `payload`, `created_at`,
`result` and `error` are unchanged. -/
theorem update_status_frame (store : Store) (id : String) (st : JobStatus)
    (now : Nat) :
    List.Forall₂ (fun d d' =>
      d' = d ∨ ((d.request_id == id) = true ∧
        d'.status = st ∧ d'.updated_at = now ∧
        d'.request_id = d.request_id ∧ d'.payload = d.payload ∧
        d'.created_at = d.created_at ∧ d'.result = d.result ∧
        d'.error = d.error))
      store (update_job_status store id st none none now).1 := by
  cases hfind : store.find? (fun d => d.request_id == id) with
  | none =>
    simp only [update_job_status, hfind]
    exact List.forall₂_same.mpr fun x _ => Or.inl rfl
  | some doc =>
    simp only [update_job_status, hfind]
    refine (updateFirst_forall₂ store id _).imp ?_
    intro d d' hd
    rcases hd with h | ⟨hmatch, rfl⟩
    · exact Or.inl h
    · exact Or.inr ⟨hmatch, rfl, rfl, rfl, rfl, rfl, rfl, rfl⟩

/-- Claim C9: `create_job` on an id that already exists returns failure and
leaves the store unchanged, and `get_job` on an id absent from the store
returns not-found. -/
theorem create_get_contract (store store2 : Store) (id id2 : String)
    (p1 p2 : Value) (n1 n2 : Nat)
    (hok : (create_job store id p1 n1).2 = true)
    (habsent : store2.find? (fun d => d.request_id == id2) = none) :
    create_job (create_job store id p1 n1).1 id p2 n2 =
      ((create_job store id p1 n1).1, false) ∧
    get_job store2 id2 = none := by
  constructor
  · by_cases hany : store.any (fun d => d.request_id == id) = true
    · simp [create_job, hany] at hok
    · have h1 : (create_job store id p1 n1).1 =
          store ++ [{ request_id := id, payload := p1,
                      status := JobStatus.pending, created_at := n1,
                      updated_at := n1, result := none, error := none }] := by
        simp [create_job, hany]
      rw [h1]
      simp [create_job, List.any_append]
  · simp [get_job, habsent]

/-- Claim C9 witness: a concrete duplicate-create failure and a concrete
missing-id lookup. -/
theorem create_get_contract_witness :
    create_job (create_job [] "j1" Value.null 0).1 "j1" Value.null 1 =
      ((create_job [] "j1" Value.null 0).1, false) ∧
    get_job [] "j1" = none :=
  create_get_contract [] [] "j1" "j1" Value.null Value.null 0 1 rfl rfl

/-- Claim C4: the webhook completion handler returns 404 Job-not-found and
leaves the store unchanged when the job id is absent; when the job id is
present — whatever the job's current status — the store afterwards holds
that job with status `complete` and the callback's `data` stored verbatim
(unsanitized) as the result. -/
theorem webhook_contract (storeA storeP : Store) (idA idP : String)
    (dataA dataP : Value) (nowA nowP : Nat) (doc : JobDoc)
    (habsent : storeA.find? (fun d => d.request_id == idA) = none)
    (hpresent : storeP.find? (fun d => d.request_id == idP) = some doc) :
    vendor_webhook storeA idA dataA nowA = (storeA, WebhookOutcome.notFound) ∧
    get_job (vendor_webhook storeP idP dataP nowP).1 idP =
      some { status := JobStatus.complete, result := some dataP,
             error := doc.error, created_at := doc.created_at,
             updated_at := nowP } := by
  constructor
  · simp [vendor_webhook, update_job_status_none _ _ _ _ _ _ habsent]
  · have h2 := find?_update_job_status storeP idP JobStatus.complete
      (some dataP) none nowP doc hpresent
    exact get_job_eq _ idP _ h2

/-- Claim C4 witness: a concrete 404 on an empty store, and a concrete
overwrite of a `failed` job to `complete` with the callback data. -/
theorem webhook_contract_witness :
    vendor_webhook [] "miss" Value.null 9 = ([], WebhookOutcome.notFound) ∧
    get_job (vendor_webhook [failedDoc] "j2" (Value.int 5) 9).1 "j2" =
      some { status := JobStatus.complete, result := some (Value.int 5),
             error := some "boom", created_at := 0, updated_at := 9 } :=
  webhook_contract [] [failedDoc] "miss" "j2" Value.null (Value.int 5) 9 9
    failedDoc rfl rfl

/-- Claim C10: `clean_vendor_data` is idempotent, and returns any input
that is not a mapping unchanged. -/
theorem clean_idempotent_and_nondict (v w : Value) (hw : w.isDict = false) :
    clean_vendor_data (clean_vendor_data v) = clean_vendor_data v ∧
    clean_vendor_data w = w := by
  refine ⟨clean_idem v, ?_⟩
  cases w with
  | dict es => simp [Value.isDict] at hw
  | str s => rfl
  | int n => rfl
  | bool b => rfl
  | null => rfl
  | list items => rfl

/-- Claim C10 witness: idempotence on a concrete nested mapping, and
identity on a concrete non-mapping value. -/
theorem clean_idempotent_and_nondict_witness :
    clean_vendor_data (clean_vendor_data
        (Value.dict [("email", Value.str " a@b.com "),
                     ("note", Value.str " hi ")])) =
      clean_vendor_data (Value.dict [("email", Value.str " a@b.com "),
                                     ("note", Value.str " hi ")]) ∧
    clean_vendor_data (Value.str " keep ") = Value.str " keep " :=
  clean_idempotent_and_nondict
    (Value.dict [("email", Value.str " a@b.com "),
                 ("note", Value.str " hi ")])
    (Value.str " keep ") rfl

/-- Claim C7: with `calls_per_second = N`, two consecutive admitted calls
on the same limiter are at least `1/N` seconds apart whatever their
arrival times; and after an idle period of any length a call arriving is
admitted immediately, but a second call at the same instant is delayed by
the full interval — no burst credit is banked. -/
theorem rate_limiter_spacing (N : Nat) (last t1 t2 u : ℚ)
    (hN : 0 < N) (hu : u - last ≥ 1 / (N : ℚ)) :
    (wait_if_needed ((wait_if_needed ⟨N, last⟩ t1).1) t2).2 -
        (wait_if_needed ⟨N, last⟩ t1).2 ≥ 1 / (N : ℚ) ∧
    (wait_if_needed ⟨N, last⟩ u).2 = u ∧
    (wait_if_needed ((wait_if_needed ⟨N, last⟩ u).1) u).2 = u + 1 / (N : ℚ) := by
  have hNQ : (0 : ℚ) < (N : ℚ) := by exact_mod_cast hN
  have hpos : (0 : ℚ) < 1 / (N : ℚ) := by positivity
  have hmin1 : min_interval ⟨N, last⟩ = 1 / (N : ℚ) := rfl
  have hnotlt : ¬(u - (⟨N, last⟩ : RateLimiter).last_call_time <
      min_interval ⟨N, last⟩) := by
    rw [hmin1]
    show ¬(u - last < 1 / (N : ℚ))
    linarith
  have hstep1 : wait_if_needed ⟨N, last⟩ u = (⟨N, u⟩, u) := by
    unfold wait_if_needed
    rw [if_neg hnotlt]
  refine ⟨?_, ?_, ?_⟩
  · have h1 := wait_ge ((wait_if_needed ⟨N, last⟩ t1).1) t2
    rw [wait_last_eq] at h1
    have h2 : min_interval ((wait_if_needed ⟨N, last⟩ t1).1) = 1 / (N : ℚ) := by
      unfold min_interval
      rw [wait_cps_eq]
    rw [h2] at h1
    linarith
  · rw [hstep1]
  · rw [hstep1]
    have hlt : (u - (⟨N, u⟩ : RateLimiter).last_call_time <
        min_interval ⟨N, u⟩) := by
      show u - u < 1 / (N : ℚ)
      linarith
    show (wait_if_needed ⟨N, u⟩ u).2 = u + 1 / (N : ℚ)
    unfold wait_if_needed
    rw [if_pos hlt]
    rfl

/-- Claim C7 witness: concrete spacing for a 5-calls-per-second limiter. -/
theorem rate_limiter_spacing_witness :
    (wait_if_needed ((wait_if_needed ⟨5, 0⟩ 10).1) 10).2 -
        (wait_if_needed ⟨5, 0⟩ 10).2 ≥ 1 / ((5 : Nat) : ℚ) ∧
    (wait_if_needed ⟨5, 0⟩ 1).2 = 1 ∧
    (wait_if_needed ((wait_if_needed ⟨5, 0⟩ 1).1) 1).2 = 1 + 1 / ((5 : Nat) : ℚ) :=
  rate_limiter_spacing 5 0 10 10 1 (by norm_num) (by norm_num)

/-- Claim C8: a job dispatched to the synchronous vendor whose call fails
at the transport level or returns a non-200 response ends with status
`failed` and non-empty error text recorded. -/
theorem sync_failure_marks_failed (store : Store) (vr : VendorRequest)
    (h t1 t2 : Nat) (outcome : HttpOutcome) (accepted : Bool) (doc : JobDoc)
    (hsync : h % 2 = 0)
    (hpresent : store.find? (fun d => d.request_id == vr.job_id) = some doc)
    (hfail : outcome = HttpOutcome.transportError ∨
      ∃ code body, outcome = HttpOutcome.response code body ∧ code ≠ 200) :
    get_job (process_job store vr h outcome accepted t1 t2) vr.job_id =
      some { status := JobStatus.failed, result := doc.result,
             error := some "Sync vendor call failed",
             created_at := doc.created_at, updated_at := t2 } ∧
    "Sync vendor call failed" ≠ "" := by
  have hch : chooseVendorType h = VendorType.sync := by
    simp [chooseVendorType, hsync]
  have hnone : call_sync_vendor outcome = none := by
    rcases hfail with rfl | ⟨code, body, rfl, hc⟩
    · rfl
    · simp [call_sync_vendor, hc]
  simp only [process_job, hch, hnone]
  have hf1 := find?_update_job_status store vr.job_id JobStatus.processing
    none none t1 doc hpresent
  have hf2 := find?_update_job_status _ vr.job_id JobStatus.failed none
    (some "Sync vendor call failed") t2 _ hf1
  refine ⟨?_, by decide⟩
  rw [get_job_eq _ vr.job_id _ hf2]
  rfl

/-- Claim C8 witness: a concrete transport failure on the sync channel. -/
theorem sync_failure_marks_failed_witness :
    get_job (process_job [failedDoc] (VendorRequest.mk "j2" Value.null) 0
        HttpOutcome.transportError false 3 4) "j2" =
      some { status := JobStatus.failed, result := none,
             error := some "Sync vendor call failed",
             created_at := 0, updated_at := 4 } ∧
    "Sync vendor call failed" ≠ "" :=
  sync_failure_marks_failed [failedDoc] (VendorRequest.mk "j2" Value.null)
    0 3 4 HttpOutcome.transportError false failedDoc rfl rfl (Or.inl rfl)

/-- Claim C1 counterexample: for the successful sync dispatch of `jobA`
the stored result keeps the string `" x "` inside a sequence untrimmed and
keeps the non-string value under the PII key `"phone"` unredacted; and a
200 response with an empty JSON body — a successful response — leaves the
job `failed`, not `complete`. -/
theorem sync_sanitization_gaps_cex :
    get_job storeSyncCex "jobA" =
      some { status := JobStatus.complete,
             result := some (Value.dict
               [("email", Value.str "[REDACTED]"),
                ("tags", Value.list [Value.str " x "]),
                ("phone", Value.int 7)]),
             error := none, created_at := 0, updated_at := 2 } ∧
    pyStrip " x " ≠ " x " ∧
    isPIIKey "phone" = true ∧
    (get_job storeEmptyBodyCex "jobA").map JobStatusResponse.status =
      some JobStatus.failed :=
  ⟨rfl, by decide, by decide, rfl⟩

/-- Claim C1 (amended): a job dispatched to the synchronous vendor whose
call returns HTTP 200 with a truthy JSON body whose `"data"` lookup
succeeds ends `complete`, with the stored result equal to the vendor data
passed through `clean_vendor_data` — which trims and (under a PII key)
redacts string values of mappings and recurses into nested mappings and
the mapping elements of sequences, leaving strings inside sequences and
non-string values under PII keys unchanged. -/
theorem sync_success_final_state (store : Store) (vr : VendorRequest)
    (h t1 t2 : Nat) (body d : Value) (accepted : Bool) (doc : JobDoc)
    (hsync : h % 2 = 0)
    (hpresent : store.find? (fun x => x.request_id == vr.job_id) = some doc)
    (htruthy : pyTruthy body = true)
    (hdata : dictGet body "data" (Value.dict []) = some d) :
    get_job (process_job store vr h (HttpOutcome.response 200 body)
        accepted t1 t2) vr.job_id =
      some { status := JobStatus.complete,
             result := some (clean_vendor_data d),
             error := doc.error, created_at := doc.created_at,
             updated_at := t2 } := by
  have hch : chooseVendorType h = VendorType.sync := by
    simp [chooseVendorType, hsync]
  have hcall : call_sync_vendor (HttpOutcome.response 200 body) = some body :=
    rfl
  simp only [process_job, hch, hcall, htruthy, hdata, if_true]
  have hf1 := find?_update_job_status store vr.job_id JobStatus.processing
    none none t1 doc hpresent
  have hf2 := find?_update_job_status _ vr.job_id JobStatus.complete
    (some (clean_vendor_data d)) none t2 _ hf1
  rw [get_job_eq _ vr.job_id _ hf2]
  rfl

/-- Claim C1 witness: the concrete successful sync dispatch of `jobA`. -/
theorem sync_success_final_state_witness :
    get_job (process_job storeCex vrCex 0
        (HttpOutcome.response 200 bodyCex) false 1 2) "jobA" =
      some { status := JobStatus.complete,
             result := some (clean_vendor_data dataCex),
             error := none, created_at := 0, updated_at := 2 } :=
  sync_success_final_state storeCex vrCex 0 1 2 bodyCex dataCex false
    { request_id := "jobA", payload := Value.null,
      status := JobStatus.pending, created_at := 0, updated_at := 0,
      result := none, error := none }
    rfl rfl rfl rfl

/-- Claim C2 counterexample: `jobA` reaches the terminal state `failed`
through the dispatcher, and a later webhook call moves it back to
`complete` — a terminal state is left. -/
theorem terminal_state_overwritten_cex :
    (get_job storeFailedCex "jobA").map JobStatusResponse.status =
      some JobStatus.failed ∧
    (get_job storeNecroCex "jobA").map JobStatusResponse.status =
      some JobStatus.complete :=
  ⟨rfl, rfl⟩

/-- Claim C2 (amended): of the two terminal states only `complete` is
stable — a job whose status is `complete` still has status `complete`
after any webhook call (the handler rewrites `complete` unconditionally),
whereas a `failed` job is moved back to `complete` by the webhook handler,
and the dispatcher likewise overwrites any current status. -/
theorem complete_stable_under_webhook (store : Store) (id : String)
    (data : Value) (now : Nat) (doc : JobDoc)
    (hpresent : store.find? (fun d => d.request_id == id) = some doc)
    (_hc : doc.status = JobStatus.complete) :
    (get_job (vendor_webhook store id data now).1 id).map
      JobStatusResponse.status = some JobStatus.complete := by
  have hf := find?_update_job_status store id JobStatus.complete (some data)
    none now doc hpresent
  show (get_job (update_job_status store id JobStatus.complete (some data)
      none now).1 id).map JobStatusResponse.status = some JobStatus.complete
  rw [get_job_eq _ id _ hf]
  rfl

/-- Claim C2 witness: a concrete complete job stays complete under a
webhook call. -/
theorem complete_stable_under_webhook_witness :
    (get_job (vendor_webhook [completeDoc] "jc" Value.null 7).1 "jc").map
      JobStatusResponse.status = some JobStatus.complete :=
  complete_stable_under_webhook [completeDoc] "jc" Value.null 7 completeDoc
    rfl rfl

/-- Claim C3 counterexample: immediately after `dequeue_job` returns the
entry of `queueCex` — before the consumer has processed anything — the
pending (unacknowledged) set is already empty, so a crash at this point
leaves nothing eligible for redelivery. -/
theorem ack_before_processing_cex :
    ((dequeue_job queueCex).2).isSome = true ∧
    (dequeue_job queueCex).1.pending = [] :=
  ⟨rfl, rfl⟩

/-- Claim C3 (amended): `dequeue_job` acknowledges the entry itself:
whenever it returns an entry, that entry has already been removed from the
pending set at return time, before the caller processes it — delivery is
effectively at-most-once. -/
theorem dequeue_acks_immediately (q : QueueState) (e : QueueEntry)
    (hnext : q.stream[q.deliveredCount]? = some e) :
    (dequeue_job q).2 = some (parseEntry e) ∧
    (dequeue_job q).1.pending =
      (q.pending ++ [e.id]).filter (fun i => i != e.id) ∧
    e.id ∉ (dequeue_job q).1.pending := by
  refine ⟨?_, ?_, ?_⟩
  · simp [dequeue_job, hnext]
  · simp [dequeue_job, hnext]
  · simp [dequeue_job, hnext, List.mem_filter]

/-- Claim C3 witness: the concrete dequeue of `queueCex`. -/
theorem dequeue_acks_immediately_witness :
    (dequeue_job queueCex).2 = some (parseEntry entryCex) ∧
    (dequeue_job queueCex).1.pending =
      (queueCex.pending ++ [entryCex.id]).filter
        (fun i => i != entryCex.id) ∧
    entryCex.id ∉ (dequeue_job queueCex).1.pending :=
  dequeue_acks_immediately queueCex entryCex rfl

/-- Claim C5 counterexample: the queue entry for `jobA` carries the
selector `"async"`, yet the worker's channel choice evaluates to `sync`
for hash value 0 (and to `async` for hash value 1) — and processing the
dequeued request with hash 0 completes the job with a dispatcher-written
result, which only the synchronous path does, even though the async vendor
rejected the job. -/
theorem routing_ignores_selector_cex :
    queueCex.stream = [entryCex] ∧
    (dequeue_job queueCex).2 = some (parseEntry entryCex) ∧
    entryCex.vendor_type = "async" ∧
    chooseVendorType 0 = VendorType.sync ∧
    chooseVendorType 1 = VendorType.async ∧
    (get_job (process_job storeCex (parseEntry entryCex) 0
        (HttpOutcome.response 200 bodyCex) false 1 2) "jobA").map
      JobStatusResponse.status = some JobStatus.complete :=
  ⟨rfl, rfl, rfl, rfl, rfl, rfl⟩

/-- Claim C5 (amended): the enqueuer stores the channel selector in the
queue entry, but `dequeue_job` drops it when parsing the entry into a
`VendorRequest`, and the worker's processing is independent of it: two
entries agreeing on `request_id` and `payload` but differing in
`vendor_type` parse identically and are processed identically (the channel
is chosen from the hash of the job id instead). -/
theorem routing_independent_of_selector (e1 e2 : QueueEntry) (store : Store)
    (h t1 t2 : Nat) (outcome : HttpOutcome) (accepted : Bool)
    (hid : e1.request_id = e2.request_id) (hp : e1.payload = e2.payload) :
    parseEntry e1 = parseEntry e2 ∧
    process_job store (parseEntry e1) h outcome accepted t1 t2 =
      process_job store (parseEntry e2) h outcome accepted t1 t2 := by
  have hpe : parseEntry e1 = parseEntry e2 := by
    unfold parseEntry
    rw [hid, hp]
  exact ⟨hpe, by rw [hpe]⟩

/-- Claim C5 witness: the `async`- and `sync`-selector variants of the
`jobA` entry parse and process identically. -/
theorem routing_independent_of_selector_witness :
    parseEntry entryCex = parseEntry entrySyncCex ∧
    process_job storeCex (parseEntry entryCex) 0 HttpOutcome.transportError
        false 1 2 =
      process_job storeCex (parseEntry entrySyncCex) 0
        HttpOutcome.transportError false 1 2 :=
  routing_independent_of_selector entryCex entrySyncCex storeCex 0 1 2
    HttpOutcome.transportError false rfl rfl

end MultiVendor
